import Mathlib

/-
Verification of the prayer-times coordinator
(src/custom_components/prayer_times/coordinator.py) against its
natural-language specification.

Shallow embedding conventions:
  - Instants are integers: seconds since the Unix epoch, UTC.  The code zeroes
    the microsecond component of now (coordinator.py line 149), so a
    one-second resolution is exact.
  - Calendar dates are proleptic-Gregorian triples; date arithmetic
    (timedelta(days = 1) in Python) is modelled by the standard
    civil-from-days / days-from-civil conversion, as Python implements it.
  - The platform timezone (homeassistant.util.dt, declared out of scope by
    the spec, whose correctness the spec assumes) is modelled by a structure
    holding a standard UTC offset and a DST predicate on naive local
    timestamps; dt_util.as_local attaches the local zone to a naive local
    datetime, dst() tests the DST predicate at its wall-clock value, and
    as_utc preserves the instant.
  - A value of type DTStr models a Python datetime string: DTStr.iso t is the
    isoformat output of an aware datetime with instant t (which
    dt_util.parse_datetime parses back to t), DTStr.malformed s is any string
    parse_datetime rejects.
  - Exceptions become Except / Option values; the UpdateFailed raised by the
    coordinator is UpdateError here.
-/

deriving instance DecidableEq for Except

/-- Proleptic Gregorian calendar date, as used by Python datetime.date. -/
structure CivilDate where
  year : Int
  month : Nat
  day : Nat
deriving DecidableEq, Repr

/-- Days since 1970-01-01 of a civil date (standard civil-calendar algorithm,
the arithmetic Python datetime.date implements). -/
def daysFromCivil (d : CivilDate) : Int :=
  let y : Int := d.year - (if d.month ≤ 2 then 1 else 0)
  let era : Int := Int.fdiv y 400
  let yoe : Int := y - era * 400
  let m : Int := (d.month : Int)
  let doy : Int := Int.fdiv (153 * (m + (if 2 < d.month then -3 else 9)) + 2) 5 + (d.day : Int) - 1
  let doe : Int := yoe * 365 + Int.fdiv yoe 4 - Int.fdiv yoe 100 + doy
  era * 146097 + doe - 719468

/-- Inverse of daysFromCivil. -/
def civilFromDays (z0 : Int) : CivilDate :=
  let z : Int := z0 + 719468
  let era : Int := Int.fdiv z 146097
  let doe : Int := z - era * 146097
  let yoe : Int := Int.fdiv (doe - Int.fdiv doe 1460 + Int.fdiv doe 36524 - Int.fdiv doe 146096) 365
  let y : Int := yoe + era * 400
  let doy : Int := doe - (365 * yoe + Int.fdiv yoe 4 - Int.fdiv yoe 100)
  let mp : Int := Int.fdiv (5 * doy + 2) 153
  let dd : Int := doy - Int.fdiv (153 * mp + 2) 5 + 1
  let m : Int := mp + (if mp < 10 then 3 else -9)
  { year := y + (if m ≤ 2 then 1 else 0), month := m.toNat, day := dd.toNat }

/-- Date shifted by n days: (dt plus-or-minus timedelta(days = n)).date() in
coordinator.py lines 150 and 152. -/
def addDays (d : CivilDate) (n : Int) : CivilDate := civilFromDays (daysFromCivil d + n)

/-- Splitting a character list at every colon: Python str.split of
coordinator.py line 70 (time_str.split applied to a colon). -/
def splitOnColon : List Char → List (List Char)
  | [] => [[]]
  | c :: cs =>
    if c = ':' then [] :: splitOnColon cs
    else
      match splitOnColon cs with
      | [] => [[c]]
      | g :: gs => (c :: g) :: gs

/-- Numeric value of a decimal digit character. -/
def digitVal (c : Char) : Nat := c.toNat - 48

/-- Value of a decimal digit string. -/
def digitsVal (l : List Char) : Nat := l.foldl (fun a c => 10 * a + digitVal c) 0

/-- Hour field acceptance of Python strptime with format %H: one digit, or two
digits with value at most 23 (regex alternatives for %H). -/
def validHourChars (l : List Char) : Bool :=
  l.all (·.isDigit) && (l.length == 1 || (l.length == 2 && digitsVal l ≤ 23))

/-- Minute field acceptance of Python strptime with format %M: one digit, or
two digits with value at most 59 (regex alternatives for %M). -/
def validMinuteChars (l : List Char) : Bool :=
  l.all (·.isDigit) && (l.length == 1 || (l.length == 2 && digitsVal l ≤ 59))

/-- Raw time-of-day parse of coordinator.py lines 70-73: the string is split
at colons and must give exactly two parts (the tuple unpacking on line 70);
the parts are then matched by strptime %H:%M.  Returns the hour/minute pair,
none when Python would raise (caught on line 94 and wrapped in UpdateFailed). -/
def parseHHMM (time_str : String) : Option (Nat × Nat) :=
  match splitOnColon time_str.toList with
  | [h, m] =>
    if validHourChars h && validMinuteChars m then some (digitsVal h, digitsVal m)
    else none
  | _ => none

/-- Strict two-digit HH:MM matcher, written from the words of the spec
(section 4.1 step 1) for comparison with the parse the code implements. -/
def specHHMM (time_str : String) : Bool :=
  match splitOnColon time_str.toList with
  | [h, m] =>
    h.length == 2 && h.all (·.isDigit) && m.length == 2 && m.all (·.isDigit) &&
      digitsVal h ≤ 23 && digitsVal m ≤ 59
  | _ => false

/-- Platform-local timezone model (spec section 1 places timezone and DST
correctness out of scope): a fixed standard offset east of UTC in seconds and
a predicate telling whether DST is in effect at a naive local timestamp. -/
structure Tz where
  stdOffset : Int
  dstAt : Int → Bool

/-- Naive local timestamp of datetime.combine(for_date, time) on
coordinator.py lines 71-74, in seconds. -/
def naiveLocal (d : CivilDate) (hour minute : Nat) : Int :=
  daysFromCivil d * 86400 + (hour : Int) * 3600 + (minute : Int) * 60

/-- UTC offset of the local zone at a naive local timestamp: standard offset
plus one hour when DST is in effect. -/
def utcoffset (tz : Tz) (naive : Int) : Int :=
  tz.stdOffset + (if tz.dstAt naive then 3600 else 0)

/-- Instant denoted by a naive local timestamp once the local zone is
attached: dt_util.as_local on coordinator.py line 76 (localization per spec
section 4.1 step 3). -/
def as_local (tz : Tz) (naive : Int) : Int := naive - utcoffset tz naive

/-- Instant computed by time_to_iso8601 (coordinator.py lines 68-82) before
formatting: parse the HH:MM string, combine with the date, localize, and when
aware_dt.dst() is truthy add one hour to the instant (lines 79-80, spec
section 4.1 step 4). -/
def timeToInstant (tz : Tz) (time_str : String) (for_date : CivilDate) : Option Int :=
  match parseHHMM time_str with
  | none => none
  | some hm =>
    let naive := naiveLocal for_date hm.1 hm.2
    let aware := as_local tz naive
    some (if tz.dstAt naive then aware + 3600 else aware)

/-- Model of a Python datetime string: either the isoformat output of an
aware datetime with the given instant, or a string dt_util.parse_datetime
rejects. -/
inductive DTStr where
  | iso (t : Int)
  | malformed (s : String)
deriving DecidableEq, Repr

/-- Model of dt_util.parse_datetime (platform function used on coordinator.py
lines 155, 159 and 172): recovers the instant from an isoformat string lines
68-82 produced, none on anything malformed. -/
def parse_datetime : DTStr → Option Int
  | DTStr.iso t => some t
  | DTStr.malformed _ => none

/-- Full time_to_iso8601 of coordinator.py lines 68-82: the returned
isoformat string, as a DTStr. -/
def time_to_iso8601 (tz : Tz) (time_str : String) (for_date : CivilDate) : Option DTStr :=
  (timeToInstant tz time_str for_date).map DTStr.iso

/-- One daily mapping from prayer name to datetime string, as built on
coordinator.py lines 86-93 (dict insertion order Fajr..Midnight); arbitrary
DTStr values cover the dict[str, Any] type the selection code is written
against. -/
structure PrayerDict where
  fajr : DTStr
  sunrise : DTStr
  dhuhr : DTStr
  sunset : DTStr
  maghrib : DTStr
  midnight : DTStr
deriving DecidableEq, Repr

/-- Entries of the dict in insertion order, as prayer_times.items() yields
them on coordinator.py line 171. -/
def PrayerDict.entries (p : PrayerDict) : List (String × DTStr) :=
  [("Fajr", p.fajr), ("Sunrise", p.sunrise), ("Dhuhr", p.dhuhr),
   ("Sunset", p.sunset), ("Maghrib", p.maghrib), ("Midnight", p.midnight)]

/-- Every entry of the dict parses back to an instant. -/
def PrayerDict.allParsed (p : PrayerDict) : Bool :=
  (parse_datetime p.fajr).isSome && (parse_datetime p.sunrise).isSome &&
  (parse_datetime p.dhuhr).isSome && (parse_datetime p.sunset).isSome &&
  (parse_datetime p.maghrib).isSome && (parse_datetime p.midnight).isSome

/-- One row of the prayertimes.db times table (coordinator.py lines 52-56). -/
structure DbRow where
  month : Nat
  day : Nat
  fajr : String
  sunrise : String
  dhuhr : String
  sunset : String
  maghrib : String
  midnight : String
deriving DecidableEq, Repr

/-- Coordinator state relevant to data fetching: configured latitude and
longitude (coordinator.py lines 40-41) and the SQLite database contents. -/
structure Coordinator where
  latitude : Int
  longitude : Int
  db : List DbRow

/-- Row selection of the SQL query on coordinator.py lines 52-58: the first
row of the times table whose month and day columns equal those of for_date.
Neither the year nor the configured coordinates appear in the query. -/
def fetchRow (c : Coordinator) (for_date : CivilDate) : Option DbRow :=
  c.db.find? (fun r => r.month == for_date.month && r.day == for_date.day)

/-- Failure modes of a single-date fetch: noData is the UpdateFailed raised on
coordinator.py lines 62-65 (naming the date), convError the wrapper raised on
lines 94-96 when a time string fails to convert. -/
inductive FetchError where
  | noData (d : CivilDate)
  | convError (d : CivilDate)
deriving DecidableEq, Repr

/-- Conversion of a database row to the returned dict (coordinator.py lines
86-93): each of the six time strings goes through time_to_iso8601; the first
exception aborts the whole dict, so the result is none when any conversion
fails. -/
def convRow (tz : Tz) (row : DbRow) (for_date : CivilDate) : Option PrayerDict :=
  (time_to_iso8601 tz row.fajr for_date).bind fun f =>
  (time_to_iso8601 tz row.sunrise for_date).bind fun sr =>
  (time_to_iso8601 tz row.dhuhr for_date).bind fun dh =>
  (time_to_iso8601 tz row.sunset for_date).bind fun ss =>
  (time_to_iso8601 tz row.maghrib for_date).bind fun mg =>
  (time_to_iso8601 tz row.midnight for_date).map fun mn =>
  { fajr := f, sunrise := sr, dhuhr := dh, sunset := ss, maghrib := mg, midnight := mn }

/-- Model of _fetch_prayer_times_from_db (coordinator.py lines 45-96): look
the row up by month and day, raise UpdateFailed naming the date when no row
exists, convert the six time strings, and wrap any conversion failure. -/
def fetch_prayer_times_from_db (tz : Tz) (c : Coordinator) (for_date : CivilDate) :
    Except FetchError PrayerDict :=
  match fetchRow c for_date with
  | none => Except.error (FetchError.noData for_date)
  | some row =>
    match convRow tz row for_date with
    | none => Except.error (FetchError.convError for_date)
    | some p => Except.ok p

/-- Model of get_new_prayer_times (coordinator.py lines 98-102): executor
wrapper around the database fetch, same value. -/
def get_new_prayer_times (tz : Tz) (c : Coordinator) (for_date : CivilDate) :
    Except FetchError PrayerDict :=
  fetch_prayer_times_from_db tz c for_date

/-- Tail of the selection chain on coordinator.py lines 158-163: the elif
tests the Midnight entry of today_times (bound to the misleadingly named
tomorrow_midnight variable); when it parses and now is strictly later,
tomorrow_times is selected, otherwise today_times. -/
def selectTail (now : Int) (today_times tomorrow_times : PrayerDict) : PrayerDict :=
  match parse_datetime today_times.midnight with
  | some tomorrow_midnight =>
    if tomorrow_midnight < now then tomorrow_times else today_times
  | none => today_times

/-- Selection rule of coordinator.py lines 154-163: when the Midnight entry
of yesterday_times parses (the walrus assignment; a datetime is always
truthy) and now is not later than it, yesterday_times is selected; otherwise
control falls to the elif / else chain modelled by selectTail. -/
def selectPrayerTimes (now : Int) (yesterday_times today_times tomorrow_times : PrayerDict) :
    PrayerDict :=
  match parse_datetime yesterday_times.midnight with
  | some yesterday_midnight =>
    if now ≤ yesterday_midnight then yesterday_times
    else selectTail now today_times tomorrow_times
  | none => selectTail now today_times tomorrow_times

/-- Published info dict built by the loop on coordinator.py lines 170-173:
entries whose value parse_datetime rejects are silently skipped; as_utc keeps
the instant. -/
def toInfo (p : PrayerDict) : List (String × Int) :=
  p.entries.filterMap (fun e => (parse_datetime e.2).map (fun t => (e.1, t)))

/-- Python dict subscript lookup on an association list (KeyError becomes
none). -/
def lookupKey : List (String × Int) → String → Option Int
  | [], _ => none
  | e :: rest, k => if e.1 = k then some e.2 else lookupKey rest k

/-- Failure modes of one update cycle: a failed single-date fetch, or the
KeyError raised on coordinator.py line 175 when the published dict has no
Midnight entry. -/
inductive UpdateError where
  | fetchFailed (e : FetchError)
  | keyError
deriving DecidableEq, Repr

/-- Result of one successful update cycle: the published info dict and the
Midnight instant handed to async_schedule_future_update on line 175. -/
structure UpdateResult where
  info : List (String × Int)
  armedAt : Int
deriving DecidableEq, Repr

/-- Steps of _async_update_data after the three fetches (coordinator.py lines
154-176): select a dict, build the info dict, look its Midnight entry up
(KeyError when absent) and pass that instant to the scheduler. -/
def resolveFromTimes (now : Int) (yesterday_times today_times tomorrow_times : PrayerDict) :
    Except UpdateError UpdateResult :=
  let prayer_times := selectPrayerTimes now yesterday_times today_times tomorrow_times
  let prayer_times_info := toInfo prayer_times
  match lookupKey prayer_times_info ("Midnight") with
  | none => Except.error UpdateError.keyError
  | some midnight => Except.ok ⟨prayer_times_info, midnight⟩

/-- Model of _async_update_data (coordinator.py lines 135-176).  now is the
instant dt_util.now() returned with microseconds zeroed; nowDate its local
calendar date.  The three dates are fetched sequentially (lines 150-152), the
first failure aborting the cycle, then the selection and publication run. -/
def async_update_data (tz : Tz) (c : Coordinator) (now : Int) (nowDate : CivilDate) :
    Except UpdateError UpdateResult :=
  match get_new_prayer_times tz c (addDays nowDate (-1)) with
  | Except.error e => Except.error (UpdateError.fetchFailed e)
  | Except.ok yesterday_times =>
    match get_new_prayer_times tz c nowDate with
    | Except.error e => Except.error (UpdateError.fetchFailed e)
    | Except.ok today_times =>
      match get_new_prayer_times tz c (addDays nowDate 1) with
      | Except.error e => Except.error (UpdateError.fetchFailed e)
      | Except.ok tomorrow_times =>
        resolveFromTimes now yesterday_times today_times tomorrow_times

/-- One refresh cycle as DataUpdateCoordinator runs it: on success the
published data is replaced wholesale, on UpdateFailed the previously
published data stays. -/
def updateCycle (tz : Tz) (c : Coordinator) (now : Int) (nowDate : CivilDate)
    (prev : Option (List (String × Int))) : Option (List (String × Int)) :=
  match async_update_data tz c now nowDate with
  | Except.ok r => some r.info
  | Except.error _ => prev

/-- One timer registered with the event loop: its handle id and firing
instant. -/
structure Timer where
  id : Nat
  fireAt : Int
deriving DecidableEq, Repr

/-- Event-loop timer registry: the next handle id and the list of pending
(not yet cancelled) timers. -/
structure HassState where
  nextId : Nat
  pending : List Timer
deriving DecidableEq, Repr

/-- Model of the platform helper async_track_point_in_time (spec section 9
describes the injectable armOnce capability): registers a one-shot timer at
the given instant and returns its handle id together with the new registry. -/
def async_track_point_in_time (s : HassState) (fire_at : Int) : Nat × HassState :=
  (s.nextId, ⟨s.nextId + 1, s.pending ++ [⟨s.nextId, fire_at⟩]⟩)

/-- Cancellation capability: calling the stored unsubscribe handle removes
that timer from the registry.  The coordinator source never calls it before
re-arming. -/
def cancelTimer (s : HassState) (timer_id : Nat) : HassState :=
  { s with pending := s.pending.filter (fun t => t.id != timer_id) }

/-- Scheduler-relevant coordinator state: the event-loop registry and the
event_unsub field of coordinator.py line 42. -/
structure CoordinatorSched where
  hass : HassState
  event_unsub : Option Nat
deriving DecidableEq, Repr

/-- Model of async_schedule_future_update (coordinator.py lines 104-129): the
live code registers a timer at midnight_dt plus one second and assigns the
returned unsubscribe handle to event_unsub.  No cancellation of a previously
stored handle happens before the assignment. -/
def async_schedule_future_update (s : CoordinatorSched) (midnight_dt : Int) : CoordinatorSched :=
  { hass := (async_track_point_in_time s.hass (midnight_dt + 1)).2,
    event_unsub := some (async_track_point_in_time s.hass (midnight_dt + 1)).1 }

/- ===== concrete fixtures used by witnesses and counterexamples ===== -/

/-- UTC-like zone without DST. -/
def tz0 : Tz := { stdOffset := 0, dstAt := fun _ => false }

/-- Zone five hours west of UTC with DST permanently in effect, to exercise
the DST branch. -/
def tzDst : Tz := { stdOffset := -18000, dstAt := fun _ => true }

def julyDate : CivilDate := ⟨2024, 7, 1⟩

def date0 : CivilDate := ⟨2024, 3, 2⟩

def row1 : DbRow := ⟨3, 1, "05:31", "06:45", "12:10", "17:35", "17:50", "23:58"⟩

def row2 : DbRow := ⟨3, 2, "05:29", "06:43", "12:10", "17:36", "17:51", "00:15"⟩

def row3 : DbRow := ⟨3, 3, "05:27", "06:41", "12:09", "17:38", "17:53", "23:59"⟩

def coord0 : Coordinator := ⟨435, -794, [row1, row2, row3]⟩

/-- Same database as coord0, different configured coordinates. -/
def coordB : Coordinator := ⟨99999, 42, [row1, row2, row3]⟩

/-- Coordinator whose database has no rows at all. -/
def coordEmpty : Coordinator := ⟨0, 0, []⟩

/-- Info dict async_update_data publishes for tz0 / coord0 / date0 at
2024-03-02T00:05:00Z. -/
def info0 : List (String × Int) :=
  [("Fajr", 1709357340), ("Sunrise", 1709361780), ("Dhuhr", 1709381400),
   ("Sunset", 1709400960), ("Maghrib", 1709401860), ("Midnight", 1709338500)]

def pdY : PrayerDict :=
  ⟨DTStr.iso 10, DTStr.iso 20, DTStr.iso 30, DTStr.iso 40, DTStr.iso 50, DTStr.iso 100⟩

def pdT : PrayerDict :=
  ⟨DTStr.iso 110, DTStr.iso 120, DTStr.iso 130, DTStr.iso 140, DTStr.iso 150, DTStr.iso 200⟩

def pdTw : PrayerDict :=
  ⟨DTStr.iso 210, DTStr.iso 220, DTStr.iso 230, DTStr.iso 240, DTStr.iso 250, DTStr.iso 300⟩

/-- Yesterday dict whose Midnight entry parse_datetime rejects. -/
def pdBadMid : PrayerDict :=
  ⟨DTStr.iso 10, DTStr.iso 20, DTStr.iso 30, DTStr.iso 40, DTStr.iso 50,
   DTStr.malformed ("garbage")⟩

/-- Previously published data for staleness checks. -/
def prevInfo0 : List (String × Int) := [("Fajr", 1)]

/-- Scheduler state with no pending timer and no stored handle. -/
def sched0 : CoordinatorSched := ⟨⟨0, []⟩, none⟩

/- ===== helper lemmas ===== -/

theorem splitOnColon_ne_nil : ∀ l : List Char, splitOnColon l ≠ [] := by
  intro l
  induction l with
  | nil => simp [splitOnColon]
  | cons c cs ih =>
    simp only [splitOnColon]
    split
    · simp
    · split
      · simp
      · simp

theorem splitOnColon_of_no_colon : ∀ l : List Char, (∀ c ∈ l, c ≠ ':') →
    splitOnColon l = [l] := by
  intro l
  induction l with
  | nil => intro _; rfl
  | cons c cs ih =>
    intro h
    have hc : c ≠ ':' := h c (List.mem_cons_self c cs)
    have hcs := ih (fun x hx => h x (List.mem_cons_of_mem c hx))
    simp only [splitOnColon, if_neg hc, hcs]

theorem splitOnColon_append : ∀ h m : List Char, (∀ c ∈ h, c ≠ ':') →
    splitOnColon (h ++ ':' :: m) = h :: splitOnColon m := by
  intro h
  induction h with
  | nil => intro m _; simp [splitOnColon]
  | cons c cs ih =>
    intro m hc
    have hcn : c ≠ ':' := hc c (List.mem_cons_self c cs)
    have hrec := ih m (fun x hx => hc x (List.mem_cons_of_mem c hx))
    simp only [List.cons_append, splitOnColon, if_neg hcn, List.append_eq, hrec]

theorem splitOnColon_eq_single : ∀ l b : List Char, splitOnColon l = [b] →
    l = b ∧ ∀ c ∈ b, c ≠ ':' := by
  intro l
  induction l with
  | nil =>
    intro b hb
    simp only [splitOnColon, List.cons.injEq, and_true] at hb
    subst hb
    exact ⟨rfl, by simp⟩
  | cons c cs ih =>
    intro b hb
    simp only [splitOnColon] at hb
    by_cases hc : c = ':'
    · rw [if_pos hc] at hb
      have h1 : ([] : List Char) = b ∧ splitOnColon cs = [] := by
        have := List.cons.injEq ([] : List Char) (splitOnColon cs) b [] ▸ hb
        exact ⟨this.1, this.2⟩
      exact absurd h1.2 (splitOnColon_ne_nil cs)
    · rw [if_neg hc] at hb
      cases hcs : splitOnColon cs with
      | nil => exact absurd hcs (splitOnColon_ne_nil cs)
      | cons g gs =>
        rw [hcs] at hb
        have h1 : c :: g = b ∧ gs = [] := by
          have := List.cons.injEq (c :: g) gs b [] ▸ hb
          exact ⟨this.1, this.2⟩
        obtain ⟨hb1, hgs⟩ := h1
        subst hgs
        obtain ⟨hcs1, hcs2⟩ := ih g hcs
        subst hcs1
        subst hb1
        refine ⟨rfl, ?_⟩
        intro x hx
        rcases List.mem_cons.mp hx with h | h
        · rw [h]; exact hc
        · exact hcs2 x h

theorem splitOnColon_eq_pair : ∀ l a b : List Char, splitOnColon l = [a, b] →
    l = a ++ ':' :: b ∧ (∀ c ∈ a, c ≠ ':') ∧ (∀ c ∈ b, c ≠ ':') := by
  intro l
  induction l with
  | nil => intro a b hb; simp [splitOnColon] at hb
  | cons c cs ih =>
    intro a b hb
    simp only [splitOnColon] at hb
    by_cases hc : c = ':'
    · rw [if_pos hc] at hb
      have h1 : ([] : List Char) = a ∧ splitOnColon cs = [b] := by
        have := List.cons.injEq ([] : List Char) (splitOnColon cs) a [b] ▸ hb
        exact ⟨this.1, this.2⟩
      obtain ⟨ha, hcs⟩ := h1
      obtain ⟨hcs1, hcs2⟩ := splitOnColon_eq_single cs b hcs
      subst ha
      subst hcs1
      subst hc
      exact ⟨rfl, by simp, hcs2⟩
    · rw [if_neg hc] at hb
      cases hcs : splitOnColon cs with
      | nil => exact absurd hcs (splitOnColon_ne_nil cs)
      | cons g gs =>
        rw [hcs] at hb
        have h1 : c :: g = a ∧ gs = [b] := by
          have := List.cons.injEq (c :: g) gs a [b] ▸ hb
          exact ⟨this.1, this.2⟩
        obtain ⟨ha, hgs⟩ := h1
        subst hgs
        obtain ⟨hl, hg, hbcol⟩ := ih g b hcs
        subst ha
        subst hl
        refine ⟨rfl, ?_, hbcol⟩
        intro x hx
        rcases List.mem_cons.mp hx with h | h
        · rw [h]; exact hc
        · exact hg x h

theorem digit_ne_colon : ∀ c : Char, c.isDigit = true → c ≠ ':' := by
  intro c hc hcol
  subst hcol
  simp [Char.isDigit] at hc

theorem selectTail_tomorrow (now : Int) (t tw : PrayerDict) (tm : Int)
    (ht : parse_datetime t.midnight = some tm) (hlt : tm < now) :
    selectTail now t tw = tw := by
  simp [selectTail, ht, hlt]

theorem selectTail_today (now : Int) (t tw : PrayerDict)
    (hn : ∀ tm, parse_datetime t.midnight = some tm → ¬ tm < now) :
    selectTail now t tw = t := by
  unfold selectTail
  cases ht : parse_datetime t.midnight with
  | none => rfl
  | some tm => simp [hn tm ht]

theorem selectPT_yesterday (now : Int) (y t tw : PrayerDict) (ym : Int)
    (hy : parse_datetime y.midnight = some ym) (hle : now ≤ ym) :
    selectPrayerTimes now y t tw = y := by
  simp [selectPrayerTimes, hy, hle]

theorem selectPT_tail (now : Int) (y t tw : PrayerDict)
    (hn : ∀ ym, parse_datetime y.midnight = some ym → ¬ now ≤ ym) :
    selectPrayerTimes now y t tw = selectTail now t tw := by
  unfold selectPrayerTimes
  cases hy : parse_datetime y.midnight with
  | none => rfl
  | some ym => simp [hn ym hy]

theorem selectTail_mem (now : Int) (t tw : PrayerDict) :
    selectTail now t tw = t ∨ selectTail now t tw = tw := by
  unfold selectTail
  cases parse_datetime t.midnight with
  | none => exact Or.inl rfl
  | some tm =>
    dsimp only
    split
    · exact Or.inr rfl
    · exact Or.inl rfl

theorem selectPT_mem (now : Int) (y t tw : PrayerDict) :
    selectPrayerTimes now y t tw = y ∨ selectPrayerTimes now y t tw = t ∨
    selectPrayerTimes now y t tw = tw := by
  unfold selectPrayerTimes
  cases parse_datetime y.midnight with
  | none => exact Or.inr (selectTail_mem now t tw)
  | some ym =>
    dsimp only
    split
    · exact Or.inl rfl
    · exact Or.inr (selectTail_mem now t tw)

theorem parse_isSome_iso (v : DTStr) (h : (parse_datetime v).isSome = true) :
    ∃ t, v = DTStr.iso t := by
  cases v with
  | iso t => exact ⟨t, rfl⟩
  | malformed s => simp [parse_datetime] at h

theorem time_to_iso8601_parses (tz : Tz) (s : String) (d : CivilDate) (v : DTStr)
    (h : time_to_iso8601 tz s d = some v) : (parse_datetime v).isSome = true := by
  unfold time_to_iso8601 at h
  cases ht : timeToInstant tz s d with
  | none => rw [ht] at h; simp at h
  | some t =>
    rw [ht] at h
    simp only [Option.map_some'] at h
    rw [← Option.some.injEq] at h
    cases h
    rfl

theorem convRow_allParsed (tz : Tz) (row : DbRow) (d : CivilDate) (p : PrayerDict)
    (h : convRow tz row d = some p) : p.allParsed = true := by
  unfold convRow at h
  simp only [Option.bind_eq_some, Option.map_eq_some'] at h
  obtain ⟨f, hf, sr, hsr, dh, hdh, ss, hss, mg, hmg, mn, hmn, hp⟩ := h
  subst hp
  simp [PrayerDict.allParsed,
    time_to_iso8601_parses tz row.fajr d f hf,
    time_to_iso8601_parses tz row.sunrise d sr hsr,
    time_to_iso8601_parses tz row.dhuhr d dh hdh,
    time_to_iso8601_parses tz row.sunset d ss hss,
    time_to_iso8601_parses tz row.maghrib d mg hmg,
    time_to_iso8601_parses tz row.midnight d mn hmn]

theorem fetch_ok_allParsed (tz : Tz) (c : Coordinator) (d : CivilDate) (p : PrayerDict)
    (h : fetch_prayer_times_from_db tz c d = Except.ok p) : p.allParsed = true := by
  unfold fetch_prayer_times_from_db at h
  split at h
  · simp at h
  · split at h
    · simp at h
    · next row hrow =>
      injection h with h2
      subst h2
      exact convRow_allParsed tz _ d _ hrow

theorem toInfo_keys_of_allParsed (p : PrayerDict) (h : p.allParsed = true) :
    (toInfo p).map Prod.fst =
      ["Fajr", "Sunrise", "Dhuhr", "Sunset", "Maghrib", "Midnight"] := by
  rcases p with ⟨f, sr, dh, ss, mg, mn⟩
  simp only [PrayerDict.allParsed, Bool.and_eq_true] at h
  obtain ⟨⟨⟨⟨⟨h1, h2⟩, h3⟩, h4⟩, h5⟩, h6⟩ := h
  obtain ⟨t1, rfl⟩ := parse_isSome_iso f h1
  obtain ⟨t2, rfl⟩ := parse_isSome_iso sr h2
  obtain ⟨t3, rfl⟩ := parse_isSome_iso dh h3
  obtain ⟨t4, rfl⟩ := parse_isSome_iso ss h4
  obtain ⟨t5, rfl⟩ := parse_isSome_iso mg h5
  obtain ⟨t6, rfl⟩ := parse_isSome_iso mn h6
  rfl

theorem lookup_toInfo_midnight_none (p : PrayerDict)
    (h : parse_datetime p.midnight = none) :
    lookupKey (toInfo p) ("Midnight") = none := by
  rcases p with ⟨f, sr, dh, ss, mg, mn⟩
  cases f <;> cases sr <;> cases dh <;> cases ss <;> cases mg <;>
    simp_all [toInfo, PrayerDict.entries, parse_datetime, lookupKey]

theorem resolve_keyError (now : Int) (y t tw : PrayerDict)
    (h : parse_datetime (selectPrayerTimes now y t tw).midnight = none) :
    resolveFromTimes now y t tw = Except.error UpdateError.keyError := by
  simp only [resolveFromTimes]
  rw [lookup_toInfo_midnight_none _ h]

theorem resolve_ok_info (now : Int) (y t tw : PrayerDict) (r : UpdateResult)
    (h : resolveFromTimes now y t tw = Except.ok r) :
    r.info = toInfo (selectPrayerTimes now y t tw) := by
  simp only [resolveFromTimes] at h
  split at h
  · simp at h
  · injection h with h2
    rw [← h2]

theorem update_ok_fetches (tz : Tz) (c : Coordinator) (now : Int) (d : CivilDate)
    (r : UpdateResult) (h : async_update_data tz c now d = Except.ok r) :
    ∃ y t tw,
      fetch_prayer_times_from_db tz c (addDays d (-1)) = Except.ok y ∧
      fetch_prayer_times_from_db tz c d = Except.ok t ∧
      fetch_prayer_times_from_db tz c (addDays d 1) = Except.ok tw ∧
      resolveFromTimes now y t tw = Except.ok r := by
  unfold async_update_data get_new_prayer_times at h
  split at h
  · simp at h
  · next y hy =>
    split at h
    · simp at h
    · next t ht =>
      split at h
      · simp at h
      · next tw htw => exact ⟨y, t, tw, hy, ht, htw, h⟩

theorem update_err_yesterday (tz : Tz) (c : Coordinator) (now : Int) (d : CivilDate)
    (e : FetchError)
    (h : fetch_prayer_times_from_db tz c (addDays d (-1)) = Except.error e) :
    async_update_data tz c now d = Except.error (UpdateError.fetchFailed e) := by
  unfold async_update_data get_new_prayer_times
  rw [h]

theorem update_err_today (tz : Tz) (c : Coordinator) (now : Int) (d : CivilDate)
    (y : PrayerDict) (e : FetchError)
    (hy : fetch_prayer_times_from_db tz c (addDays d (-1)) = Except.ok y)
    (h : fetch_prayer_times_from_db tz c d = Except.error e) :
    async_update_data tz c now d = Except.error (UpdateError.fetchFailed e) := by
  unfold async_update_data get_new_prayer_times
  rw [hy, h]

theorem update_err_tomorrow (tz : Tz) (c : Coordinator) (now : Int) (d : CivilDate)
    (y t : PrayerDict) (e : FetchError)
    (hy : fetch_prayer_times_from_db tz c (addDays d (-1)) = Except.ok y)
    (ht : fetch_prayer_times_from_db tz c d = Except.ok t)
    (h : fetch_prayer_times_from_db tz c (addDays d 1) = Except.error e) :
    async_update_data tz c now d = Except.error (UpdateError.fetchFailed e) := by
  unfold async_update_data get_new_prayer_times
  rw [hy, ht, h]

theorem cycle_keeps_prev (tz : Tz) (c : Coordinator) (now : Int) (d : CivilDate)
    (prev : Option (List (String × Int))) (err : UpdateError)
    (h : async_update_data tz c now d = Except.error err) :
    updateCycle tz c now d prev = prev := by
  unfold updateCycle
  rw [h]

/- ===== claim theorems ===== -/

/-- Claim C1: for every instant now and candidate schedules yesterday, today,
tomorrow, resolve selects yesterday when the Midnight entry of yesterday
exists and now is at most it; otherwise tomorrow when the Midnight entry of
today exists and now is strictly later than it; otherwise today — in exactly
this priority order (coordinator.py lines 154-163). -/
theorem claim1_select_priority_order (now : Int) (y t tw : PrayerDict) :
    ((∃ ym, parse_datetime y.midnight = some ym ∧ now ≤ ym) →
      selectPrayerTimes now y t tw = y) ∧
    ((¬ ∃ ym, parse_datetime y.midnight = some ym ∧ now ≤ ym) →
      (∃ tm, parse_datetime t.midnight = some tm ∧ tm < now) →
      selectPrayerTimes now y t tw = tw) ∧
    ((¬ ∃ ym, parse_datetime y.midnight = some ym ∧ now ≤ ym) →
      (¬ ∃ tm, parse_datetime t.midnight = some tm ∧ tm < now) →
      selectPrayerTimes now y t tw = t) := by
  refine ⟨?_, ?_, ?_⟩
  · rintro ⟨ym, hym, hle⟩
    exact selectPT_yesterday now y t tw ym hym hle
  · rintro hn ⟨tm, htm, hlt⟩
    rw [selectPT_tail now y t tw (fun ym hym hle => hn ⟨ym, hym, hle⟩)]
    exact selectTail_tomorrow now t tw tm htm hlt
  · intro hn1 hn2
    rw [selectPT_tail now y t tw (fun ym hym hle => hn1 ⟨ym, hym, hle⟩)]
    exact selectTail_today now t tw (fun tm htm hlt => hn2 ⟨tm, htm, hlt⟩)

/-- Witness for claim C1 at a concrete input: now = 50 is at most the
Midnight instant 100 of pdY, so pdY is selected. -/
theorem claim1_witness : selectPrayerTimes 50 pdY pdT pdTw = pdY :=
  (claim1_select_priority_order 50 pdY pdT pdTw).1 ⟨100, rfl, by decide⟩

/-- Claim C2 counterexample: arming twice from a state with no pending timer
leaves TWO live timers in the registry (the code overwrites event_unsub on
coordinator.py line 127 without calling the previous unsubscribe handle), so
the claimed at-most-one-pending-timer invariant is false. -/
theorem claim2_counterexample_two_timers :
    (async_schedule_future_update (async_schedule_future_update sched0 100) 200).hass.pending
      = [⟨0, 101⟩, ⟨1, 201⟩] ∧
    ¬ ((async_schedule_future_update
        (async_schedule_future_update sched0 100) 200).hass.pending.length ≤ 1) := by
  decide

/-- Claim C2 amended: arming does NOT cancel the previously pending timer; it
appends a new timer (set at the argument of the most recent call plus one
second) to the registry and overwrites the stored unsubscribe handle, which
afterwards references only the most recent timer.  Earlier timers stay live. -/
theorem claim2_amended_arm_keeps_prior (s : CoordinatorSched) (m1 m2 : Int) :
    ((async_schedule_future_update s m1).hass.pending
      = s.hass.pending ++ [⟨s.hass.nextId, m1 + 1⟩]) ∧
    ((async_schedule_future_update (async_schedule_future_update s m1) m2).hass.pending
      = s.hass.pending ++ [⟨s.hass.nextId, m1 + 1⟩, ⟨s.hass.nextId + 1, m2 + 1⟩]) ∧
    ((async_schedule_future_update (async_schedule_future_update s m1) m2).event_unsub
      = some (s.hass.nextId + 1)) := by
  refine ⟨rfl, ?_, rfl⟩
  simp [async_schedule_future_update, async_track_point_in_time]

/-- Claim C3 counterexample: with the Midnight entry of the yesterday dict
unusable (parse_datetime rejects it) but today and tomorrow fine, the resolve
steps succeed and publish the today dict — no DataUnavailable failure — so
the claim that ANY schedule missing a usable Midnight fails the whole resolve
is false. -/
theorem claim3_counterexample_bad_midnight_ok :
    parse_datetime pdBadMid.midnight = none ∧
    resolveFromTimes 150 pdBadMid pdT pdTw =
      Except.ok ⟨[("Fajr", 110), ("Sunrise", 120), ("Dhuhr", 130), ("Sunset", 140),
                  ("Maghrib", 150), ("Midnight", 200)], 200⟩ := by
  decide

/-- Claim C3 amended: a failed raw source lookup for any of the three dates
fails the entire cycle with the fetch error (which names the offending date)
and the previously published CurrentSchedule is kept; a missing usable
Midnight entry fails the cycle only when it is the Midnight of the SELECTED
schedule (KeyError on coordinator.py line 175); an unusable Midnight in a
non-selected candidate merely falsifies its selection condition. -/
theorem claim3_amended_failure_handling (tz : Tz) (c : Coordinator) (now : Int)
    (d : CivilDate) (prev : Option (List (String × Int))) :
    (∀ e, fetch_prayer_times_from_db tz c (addDays d (-1)) = Except.error e →
      async_update_data tz c now d = Except.error (UpdateError.fetchFailed e)) ∧
    (∀ y e, fetch_prayer_times_from_db tz c (addDays d (-1)) = Except.ok y →
      fetch_prayer_times_from_db tz c d = Except.error e →
      async_update_data tz c now d = Except.error (UpdateError.fetchFailed e)) ∧
    (∀ y t e, fetch_prayer_times_from_db tz c (addDays d (-1)) = Except.ok y →
      fetch_prayer_times_from_db tz c d = Except.ok t →
      fetch_prayer_times_from_db tz c (addDays d 1) = Except.error e →
      async_update_data tz c now d = Except.error (UpdateError.fetchFailed e)) ∧
    (∀ err, async_update_data tz c now d = Except.error err →
      updateCycle tz c now d prev = prev) ∧
    (∀ y t tw, parse_datetime (selectPrayerTimes now y t tw).midnight = none →
      resolveFromTimes now y t tw = Except.error UpdateError.keyError) := by
  refine ⟨?_, ?_, ?_, ?_, ?_⟩
  · intro e h
    exact update_err_yesterday tz c now d e h
  · intro y e hy h
    exact update_err_today tz c now d y e hy h
  · intro y t e hy ht h
    exact update_err_tomorrow tz c now d y t e hy ht h
  · intro err h
    exact cycle_keeps_prev tz c now d prev err h
  · intro y t tw h
    exact resolve_keyError now y t tw h

/-- Witness for claim C3 at a concrete input: the empty database makes the
yesterday lookup fail with noData naming 2024-03-01, the whole cycle fails
with that error, and the previously published data is kept. -/
theorem claim3_witness :
    async_update_data tz0 coordEmpty 0 date0 =
      Except.error (UpdateError.fetchFailed (FetchError.noData (addDays date0 (-1)))) ∧
    updateCycle tz0 coordEmpty 0 date0 (some prevInfo0) = some prevInfo0 := by
  have h := claim3_amended_failure_handling tz0 coordEmpty 0 date0 (some prevInfo0)
  have h1 := h.1 (FetchError.noData (addDays date0 (-1))) (by decide)
  exact ⟨h1, h.2.2.2.1 _ h1⟩

/-- Claim C4: every successful resolve cycle publishes a complete
CurrentSchedule — the info dict carries exactly the six prayer names of the
selected raw schedule, never a proper subset: every fetched dict consists of
isoformat strings, so the skip branch of the loop on coordinator.py lines
171-173 never drops an entry of a fetched dict. -/
theorem claim4_complete_schedule (tz : Tz) (c : Coordinator) (now : Int)
    (d : CivilDate) (r : UpdateResult)
    (h : async_update_data tz c now d = Except.ok r) :
    r.info.map Prod.fst =
      ["Fajr", "Sunrise", "Dhuhr", "Sunset", "Maghrib", "Midnight"] := by
  obtain ⟨y, t, tw, hy, ht, htw, hres⟩ := update_ok_fetches tz c now d r h
  rw [resolve_ok_info now y t tw r hres]
  have hall : (selectPrayerTimes now y t tw).allParsed = true := by
    rcases selectPT_mem now y t tw with hm | hm | hm <;> rw [hm]
    · exact fetch_ok_allParsed tz c _ y hy
    · exact fetch_ok_allParsed tz c _ t ht
    · exact fetch_ok_allParsed tz c _ tw htw
  exact toInfo_keys_of_allParsed _ hall

/-- Witness for claim C4 at a concrete input: the cycle at
2024-03-02T00:05:00Z over the three-row fixture database succeeds and its
published info dict carries all six names. -/
theorem claim4_witness :
    info0.map Prod.fst = ["Fajr", "Sunrise", "Dhuhr", "Sunset", "Maghrib", "Midnight"] :=
  claim4_complete_schedule tz0 coord0 1709337900 date0 ⟨info0, 1709338500⟩ (by decide)

/-- Claim C5 counterexample: the string 5:31 is not of two-digit HH:MM form,
yet the parse the code implements (strptime %H:%M also accepts one-digit
fields) succeeds on it, so the claimed exact HH:MM characterization is false. -/
theorem claim5_counterexample_single_digit_hour :
    (parseHHMM ("5:31")).isSome = true ∧ specHHMM ("5:31") = false := by
  decide

/-- Claim C5 amended: the raw time-of-day parse succeeds exactly on strings
consisting of a one- or two-digit hour field (value at most 23 when two
digits; any single digit accepted), one colon, and a one- or two-digit minute
field (value at most 59 when two digits), and fails on every other string;
failures surface as failure of that resolve cycle. -/
theorem claim5_amended_parse_exact (s : String) :
    (parseHHMM s).isSome = true ↔
      ∃ h m : List Char, s.toList = h ++ ':' :: m ∧
        validHourChars h = true ∧ validMinuteChars m = true := by
  constructor
  · intro hp
    unfold parseHHMM at hp
    split at hp
    · next h m heq =>
      split at hp
      · next hv =>
        obtain ⟨hl, _, _⟩ := splitOnColon_eq_pair s.toList h m heq
        obtain ⟨hvh, hvm⟩ := Bool.and_eq_true_iff.mp hv
        exact ⟨h, m, hl, hvh, hvm⟩
      · simp at hp
    · simp at hp
  · rintro ⟨h, m, hl, hvh, hvm⟩
    have hhd : ∀ c ∈ h, c ≠ ':' := by
      intro c hc
      have := (List.all_eq_true.mp (Bool.and_eq_true_iff.mp hvh).1) c hc
      exact digit_ne_colon c (by simpa using this)
    have hmd : ∀ c ∈ m, c ≠ ':' := by
      intro c hc
      have := (List.all_eq_true.mp (Bool.and_eq_true_iff.mp hvm).1) c hc
      exact digit_ne_colon c (by simpa using this)
    unfold parseHHMM
    rw [hl, splitOnColon_append h m hhd, splitOnColon_of_no_colon m hmd]
    simp [hvh, hvm]

/-- Witness for claim C5 at a concrete input: the decomposition of 5:31 into
a one-digit hour and a two-digit minute makes the parse succeed. -/
theorem claim5_witness : (parseHHMM ("5:31")).isSome = true :=
  (claim5_amended_parse_exact ("5:31")).mpr
    ⟨['5'], ['3', '1'], by decide, by decide, by decide⟩

/-- Claim C6: for every parsed time string and date, when the localized
instant falls in a DST-active period the conversion returns the localized
instant plus exactly one hour, and otherwise the localized instant unchanged
(coordinator.py lines 75-82). -/
theorem claim6_dst_compensation (tz : Tz) (s : String) (d : CivilDate) (h m : Nat)
    (hp : parseHHMM s = some (h, m)) :
    timeToInstant tz s d =
      some (if tz.dstAt (naiveLocal d h m) then as_local tz (naiveLocal d h m) + 3600
            else as_local tz (naiveLocal d h m)) := by
  unfold timeToInstant
  rw [hp]

/-- Witness for claim C6 at a concrete input: raw 05:31 on 2024-07-01 in a
DST-active zone converts to exactly one hour after the localized instant. -/
theorem claim6_witness :
    timeToInstant tzDst ("05:31") julyDate =
      some (as_local tzDst (naiveLocal julyDate 5 31) + 3600) := by
  have h := claim6_dst_compensation tzDst ("05:31") julyDate 5 31 (by decide)
  simpa [tzDst] using h

/-- Claim C7: arming schedules the one-shot callback at exactly the midnight
instant plus one second (coordinator.py line 128), so the callback instant is
strictly after the Islamic-midnight boundary, never at or before it. -/
theorem claim7_timer_fires_strictly_after (s : CoordinatorSched) (midnight_dt : Int) :
    (async_schedule_future_update s midnight_dt).hass.pending.getLast? =
      some ⟨s.hass.nextId, midnight_dt + 1⟩ ∧
    (async_schedule_future_update s midnight_dt).event_unsub = some s.hass.nextId ∧
    midnight_dt < midnight_dt + 1 := by
  refine ⟨?_, rfl, by omega⟩
  exact List.getLast?_concat _

/-- Claim C8: for chronologically ordered well-formed candidates (Midnight of
yesterday before Midnight of today before Midnight of tomorrow) and now lying
within a day after the Midnight of today (as holds when the three schedules
are derived from the date of now), resolve selects one of the three
candidates and the Midnight of the selected schedule is strictly later than
now minus 24 hours. -/
theorem claim8_selected_midnight_bound (now ym tm tmm : Int) (y t tw : PrayerDict)
    (hy : parse_datetime y.midnight = some ym)
    (ht : parse_datetime t.midnight = some tm)
    (htw : parse_datetime tw.midnight = some tmm)
    (h1 : ym < tm) (h2 : tm < tmm) (h3 : now < tm + 86400) :
    (selectPrayerTimes now y t tw = y ∨ selectPrayerTimes now y t tw = t ∨
      selectPrayerTimes now y t tw = tw) ∧
    (∃ sm, parse_datetime (selectPrayerTimes now y t tw).midnight = some sm ∧
      now - 86400 < sm) := by
  by_cases hle : now ≤ ym
  · rw [selectPT_yesterday now y t tw ym hy hle]
    exact ⟨Or.inl rfl, ym, hy, by omega⟩
  · rw [selectPT_tail now y t tw (fun ym2 hym2 => by
      rw [hy] at hym2
      cases hym2
      exact hle)]
    by_cases hlt : tm < now
    · rw [selectTail_tomorrow now t tw tm ht hlt]
      exact ⟨Or.inr (Or.inr rfl), tmm, htw, by omega⟩
    · rw [selectTail_today now t tw (fun tm2 htm2 => by
        rw [ht] at htm2
        cases htm2
        exact hlt)]
      exact ⟨Or.inr (Or.inl rfl), tm, ht, by omega⟩

/-- Witness for claim C8 at a concrete input: ordered midnights 100 < 200 <
300 with now = 150 select the today dict, whose Midnight 200 exceeds now
minus a day. -/
theorem claim8_witness :
    (selectPrayerTimes 150 pdY pdT pdTw = pdY ∨ selectPrayerTimes 150 pdY pdT pdTw = pdT ∨
      selectPrayerTimes 150 pdY pdT pdTw = pdTw) ∧
    (∃ sm, parse_datetime (selectPrayerTimes 150 pdY pdT pdTw).midnight = some sm ∧
      (150 : Int) - 86400 < sm) :=
  claim8_selected_midnight_bound 150 100 200 300 pdY pdT pdTw rfl rfl rfl
    (by decide) (by decide) (by decide)

/-- Claim C9: resolve and the raw-to-absolute conversion are deterministic —
with the timezone model, database contents, now and dates fixed, two
invocations yield identical results.  The embedded functions read no state
beyond their arguments, mirroring the code, which touches only now, the
database and the timezone rules. -/
theorem claim9_deterministic (tz : Tz) (c : Coordinator) (now now2 : Int)
    (d d2 : CivilDate) (s s2 : String)
    (hn : now = now2) (hd : d = d2) (hs : s = s2) :
    async_update_data tz c now d = async_update_data tz c now2 d2 ∧
    timeToInstant tz s d = timeToInstant tz s2 d2 := by
  subst hn
  subst hd
  subst hs
  exact ⟨rfl, rfl⟩

/-- Witness for claim C9 at a concrete input. -/
theorem claim9_witness :
    async_update_data tz0 coord0 1709337900 date0 =
      async_update_data tz0 coord0 1709337900 date0 ∧
    timeToInstant tz0 ("05:31") date0 = timeToInstant tz0 ("05:31") date0 :=
  claim9_deterministic tz0 coord0 1709337900 1709337900 date0 date0
    ("05:31") ("05:31") rfl rfl rfl

/-- Claim C10: the database row fetched for a date depends only on its month
and day: with equal database contents, equal months and equal days, the
selected row is identical whatever the years and whatever the configured
latitude and longitude, which the query on coordinator.py lines 52-58 never
reads. -/
theorem claim10_row_month_day_only (c1 c2 : Coordinator) (d1 d2 : CivilDate)
    (hdb : c1.db = c2.db) (hm : d1.month = d2.month) (hd : d1.day = d2.day) :
    fetchRow c1 d1 = fetchRow c2 d2 := by
  unfold fetchRow
  rw [hdb, hm, hd]

/-- Witness for claim C10 at a concrete input: same database under different
configured coordinates, dates 2024-03-01 and 1999-03-01 sharing month and
day, same selected row. -/
theorem claim10_witness :
    fetchRow coord0 ⟨2024, 3, 1⟩ = fetchRow coordB ⟨1999, 3, 1⟩ :=
  claim10_row_month_day_only coord0 coordB ⟨2024, 3, 1⟩ ⟨1999, 3, 1⟩ rfl rfl rfl
